import Mathlib

/-!
Verification of the Sarvis HTTP client wrapper (src/src/index.ts).

Shallow embedding: JavaScript runtime values are modelled by `Value`
(with `Value.vnull` playing the role of both `null` and `undefined` where
only truthiness matters), the `ISarvisConfig` object by a structure of
optional fields, `RequestInit` by a structure whose `Option` fields record
key presence, `Headers` by an association list built by `append`, and the
transport (`fetch`) by an explicit oracle function.  Promise rejection is
modelled by `Except`: `.error e` is a rejected promise carrying `e`.
-/

namespace Sarvis

/-- JavaScript values as far as the client manipulates them.
`vresp ok jsonFails jsonVal` models a fetch `Response` object whose `ok`
field is `ok` and whose `json()` method rejects with `jsonVal` when
`jsonFails` is true and otherwise resolves with `jsonVal`. -/
inductive Value where
  | vnull
  | vbool (b : Bool)
  | vnum (n : Int)
  | vstr (s : String)
  | vresp (ok : Bool) (jsonFails : Bool) (jsonVal : Value)
deriving Repr, DecidableEq

/-- JavaScript truthiness of a `Value` (`undefined`/`null`, `false`, `0`
and `""` are falsy; objects such as `Response` are always truthy). -/
def truthy : Value → Bool
  | .vnull => false
  | .vbool b => b
  | .vnum n => n != 0
  | .vstr s => s != ""
  | .vresp _ _ _ => true

/-- JavaScript string coercion, as performed by `"An Error" + error`. -/
def jsToString : Value → String
  | .vnull => "null"
  | .vbool b => if b then "true" else "false"
  | .vnum n => toString n
  | .vstr s => s
  | .vresp _ _ _ => "[object Response]"

/-- `JSON.stringify` on the values the model carries. -/
def stringify : Value → String
  | .vnull => "null"
  | .vbool b => if b then "true" else "false"
  | .vnum n => toString n
  | .vstr s => "\"" ++ s ++ "\""
  | .vresp _ _ _ => "{}"

/-- Truthiness of an optional string field of the config object
(`undefined` and `""` are falsy). -/
def strTruthy : Option String → Bool
  | none => false
  | some s => s != ""

/-- Truthiness of the optional numeric `port` field (`undefined` and `0`
are falsy). -/
def natTruthy : Option Nat → Bool
  | none => false
  | some n => n != 0

/-- The `ISarvisConfig` interface: all fields optional. -/
structure ISarvisConfig where
  base_url : Option String := none
  port : Option Nat := none
  base_path : Option String := none
  authorization : Option String := none
deriving Repr, DecidableEq

/-- `RequestInit`: a field of `none` means the key is absent. -/
structure RequestInit where
  method : Option String := none
  headers : Option (List (String × String)) := none
  body : Option String := none
deriving Repr, DecidableEq

/-- `createApiUrl` (src/src/index.ts lines 165-182): returns `undefined`
without a truthy `base_url`; otherwise starts from `base_url`, appends
`base_path` when truthy, then appends the port number when truthy. -/
def createApiUrl (config : ISarvisConfig) : Option String :=
  if !(strTruthy config.base_url) then
    none
  else
    let url := config.base_url.getD ""
    let url := if strTruthy config.base_path then url ++ config.base_path.getD "" else url
    let url := if natTruthy config.port then url ++ toString (config.port.getD 0) else url
    some url

/-- `getApiUrl` (lines 184-188): the stored `api_url` when truthy,
otherwise the empty string. -/
def getApiUrl (api_url : Option String) : String :=
  if strTruthy api_url then api_url.getD "" else ""

/-- `withAuthHeader` (lines 111-118): appends an `Authorization` header
exactly when the config's `authorization` field is truthy. -/
def withAuthHeader (config : ISarvisConfig) (headers : List (String × String)) :
    List (String × String) :=
  if !(strTruthy config.authorization) then headers
  else headers ++ [("Authorization", config.authorization.getD "")]

/-- `basicHeaders` (lines 120-124): a fresh `Headers` with
`Content-Type: application/json`, then `withAuthHeader`. -/
def basicHeaders (config : ISarvisConfig) : List (String × String) :=
  withAuthHeader config [("Content-Type", "application/json")]

/-- `getBasicRequestConfig` (lines 103-109): `method ? method : "GET"`,
the basic headers, and `body ? JSON.stringify(body) : undefined`. -/
def getBasicRequestConfig (config : ISarvisConfig) (method : Option String)
    (body : Option Value) : RequestInit :=
  { method := some (match method with
      | some m => if m != "" then m else "GET"
      | none => "GET"),
    headers := some (basicHeaders config),
    body := match body with
      | some b => if truthy b then some (stringify b) else none
      | none => none }

/-- Object-spread merge `{...base, ...override}` over the three
`RequestInit` keys: the override's value wins for each key it carries,
every other key keeps the base's value. -/
def mergeConfig (base override : RequestInit) : RequestInit :=
  { method := match override.method with
      | some m => some m
      | none => base.method,
    headers := match override.headers with
      | some h => some h
      | none => base.headers,
    body := match override.body with
      | some b => some b
      | none => base.body }

/-- `{...this.getBasicRequestConfig(method, body), ...customConfig}` as
executed by each verb (lines 49, 62, 75, 88); spreading `undefined` is a
no-op. -/
def requestConfigFor (config : ISarvisConfig) (method : String) (body : Option Value)
    (customConfig : Option RequestInit) : RequestInit :=
  match customConfig with
  | none => getBasicRequestConfig config (some method) body
  | some c => mergeConfig (getBasicRequestConfig config (some method) body) c

/-- The request URL each verb builds after refreshing `api_url`
(`this.api_url = this.createApiUrl(); ... this.getApiUrl() + url`). -/
def requestUrlFor (config : ISarvisConfig) (url : String) : String :=
  getApiUrl (createApiUrl config) ++ url

/-- The outcome of the platform `fetch`: either the promise rejects with a
value, or it resolves to a `Response` with the given `ok` flag and
`json()` behaviour. -/
inductive TransportOutcome where
  | fail (e : Value)
  | resp (ok : Bool) (jsonFails : Bool) (jsonVal : Value)
deriving Repr, DecidableEq

/-- A transport oracle standing for the platform `fetch`. -/
def Transport : Type := String → RequestInit → TransportOutcome

/-- The `{result, error}` envelope `fetchRequest` resolves with; `vnull`
encodes the JavaScript `null` written in the source. -/
structure Envelope where
  result : Value
  error : Value
deriving Repr, DecidableEq

/-- Lines 129-133: when a `useBefore` hook is registered its return value
replaces both the URL and the options, unconditionally. -/
def applyUseBefore (useBefore : Option (String → RequestInit → String × RequestInit))
    (url : String) (config : RequestInit) : String × RequestInit :=
  match useBefore with
  | some f => f url config
  | none => (url, config)

/-- Lines 140-142 and 148-150: the `useAfter` hook, when registered. -/
def applyUseAfter (useAfter : Option (Value → Value)) (v : Value) : Value :=
  match useAfter with
  | some f => f v
  | none => v

/-- `fetchRequest` (lines 126-158): apply `useBefore`, call the transport,
throw the response when `!result.ok`, short-circuit with the raw response
when `returnFullRequest`, otherwise parse JSON; every thrown value is
caught and returned as `{result: null, error}`.  The hooks are modelled as
pure functions, per the specification. -/
def fetchRequest (useBefore : Option (String → RequestInit → String × RequestInit))
    (useAfter : Option (Value → Value)) (returnFullRequest : Bool)
    (transport : Transport) (requestUrl : String) (requestConfig : RequestInit) :
    Envelope :=
  let uc := applyUseBefore useBefore requestUrl requestConfig
  match transport uc.1 uc.2 with
  | .fail e => { result := .vnull, error := e }
  | .resp ok jsonFails jsonVal =>
    if !ok then
      { result := .vnull, error := .vresp ok jsonFails jsonVal }
    else if returnFullRequest then
      { result := applyUseAfter useAfter (.vresp ok jsonFails jsonVal), error := .vnull }
    else if jsonFails then
      { result := .vnull, error := jsonVal }
    else
      { result := applyUseAfter useAfter jsonVal, error := .vnull }

/-- The mutable state of a `Sarvis` instance. -/
structure SarvisState where
  config : ISarvisConfig
  api_url : Option String
  useBefore : Option (String → RequestInit → String × RequestInit)
  useAfter : Option (Value → Value)
  returnFullRequest : Bool

/-- The constructor (lines 27-37): a missing config becomes `{}`, and the
initial `api_url` is computed. -/
def mkSarvis (config : Option ISarvisConfig) : SarvisState :=
  let c := config.getD {}
  { config := c, api_url := createApiUrl c, useBefore := none, useAfter := none,
    returnFullRequest := false }

/-- Lines 66, 79, 92 (`post`/`put`/`delete`): `if (error) reject(error)`
else resolve `result`. -/
def unwrapRaw (env : Envelope) : Except Value Value :=
  if truthy env.error then .error env.error else .ok env.result

/-- Line 53 (`get`): `if (error) reject("An Error" + error)`. -/
def unwrapGet (env : Envelope) : Except Value Value :=
  if truthy env.error then .error (.vstr ("An Error" ++ jsToString env.error))
  else .ok env.result

/-- `get` (lines 45-56): refresh `api_url`, spread-merge the config,
dispatch through `fetchRequest`, unwrap with the `"An Error" + error`
rejection. Returns the updated state and the settled promise. -/
def get (s : SarvisState) (transport : Transport) (url : String)
    (customConfig : Option RequestInit) : SarvisState × Except Value Value :=
  let s := { s with api_url := createApiUrl s.config }
  let config := requestConfigFor s.config "GET" none customConfig
  let env := fetchRequest s.useBefore s.useAfter s.returnFullRequest transport
    (getApiUrl s.api_url ++ url) config
  (s, unwrapGet env)

/-- `post` (lines 58-69). -/
def post (s : SarvisState) (transport : Transport) (url : String) (body : Option Value)
    (customConfig : Option RequestInit) : SarvisState × Except Value Value :=
  let s := { s with api_url := createApiUrl s.config }
  let config := requestConfigFor s.config "POST" body customConfig
  let env := fetchRequest s.useBefore s.useAfter s.returnFullRequest transport
    (getApiUrl s.api_url ++ url) config
  (s, unwrapRaw env)

/-- `put` (lines 71-82). -/
def put (s : SarvisState) (transport : Transport) (url : String) (body : Option Value)
    (customConfig : Option RequestInit) : SarvisState × Except Value Value :=
  let s := { s with api_url := createApiUrl s.config }
  let config := requestConfigFor s.config "PUT" body customConfig
  let env := fetchRequest s.useBefore s.useAfter s.returnFullRequest transport
    (getApiUrl s.api_url ++ url) config
  (s, unwrapRaw env)

/-- `delete` (lines 84-95). -/
def deleteReq (s : SarvisState) (transport : Transport) (url : String) (body : Option Value)
    (customConfig : Option RequestInit) : SarvisState × Except Value Value :=
  let s := { s with api_url := createApiUrl s.config }
  let config := requestConfigFor s.config "DELETE" body customConfig
  let env := fetchRequest s.useBefore s.useAfter s.returnFullRequest transport
    (getApiUrl s.api_url ++ url) config
  (s, unwrapRaw env)

/-- Modelled from the spec (the source is the authority; this definition
exists only for comparison): the composed base URL as the specification
words it, `base_url + (":" + port if present) + base path if present`. -/
def createApiUrlSpec (config : ISarvisConfig) : Option String :=
  if !(strTruthy config.base_url) then
    none
  else
    some ((config.base_url.getD "")
      ++ (if natTruthy config.port then ":" ++ toString (config.port.getD 0) else "")
      ++ (if strTruthy config.base_path then config.base_path.getD "" else ""))

/-- Appending the empty string on the left is the identity. -/
theorem empty_string_append (s : String) : "" ++ s = s := by
  cases s
  rfl

/-- The Readme's own example configuration. -/
def readmeConfig : ISarvisConfig :=
  { base_url := some "https://www.your-domain.com"
    port := some 3000
    base_path := some "/api" }

/-- Claim C1: with the Readme's own example configuration the source's
`createApiUrl` glues the port after the base path with no `":"`
separator, while the specification's formula puts `":" + port` right
after the base URL and the base path last; the two disagree. -/
theorem createApiUrl_port_after_path_no_colon :
    createApiUrl readmeConfig = some "https://www.your-domain.com/api3000" ∧
    createApiUrlSpec readmeConfig = some "https://www.your-domain.com:3000/api" ∧
    createApiUrl readmeConfig ≠ createApiUrlSpec readmeConfig := by
  refine ⟨rfl, rfl, ?_⟩
  decide

/-- Claim C2 counterexample: when the underlying `fetchRequest` captures
the error `"boom"`, the `get` verb rejects with the newly constructed
string `"An Errorboom"`, not with the raw captured error value. -/
theorem get_rejects_constructed_string :
    (get (mkSarvis none) (fun _ _ => .fail (.vstr "boom")) "/x" none).2
      = .error (.vstr "An Errorboom") ∧
    Value.vstr "An Errorboom" ≠ Value.vstr "boom" := by
  refine ⟨rfl, ?_⟩
  decide

/-- The envelope a verb call hands to its unwrapping step. -/
def verbEnvelope (s : SarvisState) (t : Transport) (method : String) (url : String)
    (body : Option Value) (cc : Option RequestInit) : Envelope :=
  fetchRequest s.useBefore s.useAfter s.returnFullRequest t (requestUrlFor s.config url)
    (requestConfigFor s.config method body cc)

/-- Claim C2 (amended): for every verb call whose underlying
`fetchRequest` yields a (truthy) error, `post`, `put` and `delete` reject
with exactly the raw captured error value, while `get` rejects with the
freshly constructed string `"An Error"` concatenated with the error's
string coercion. -/
theorem verb_rejections (s : SarvisState) (t : Transport) (url : String)
    (body : Option Value) (cc : Option RequestInit)
    (hG : truthy (verbEnvelope s t "GET" url none cc).error = true)
    (hP : truthy (verbEnvelope s t "POST" url body cc).error = true)
    (hU : truthy (verbEnvelope s t "PUT" url body cc).error = true)
    (hD : truthy (verbEnvelope s t "DELETE" url body cc).error = true) :
    (get s t url cc).2
      = .error (.vstr ("An Error" ++ jsToString (verbEnvelope s t "GET" url none cc).error)) ∧
    (post s t url body cc).2 = .error (verbEnvelope s t "POST" url body cc).error ∧
    (put s t url body cc).2 = .error (verbEnvelope s t "PUT" url body cc).error ∧
    (deleteReq s t url body cc).2 = .error (verbEnvelope s t "DELETE" url body cc).error := by
  refine ⟨?_, ?_, ?_, ?_⟩
  · show unwrapGet (verbEnvelope s t "GET" url none cc) = _
    simp [unwrapGet, hG]
  · show unwrapRaw (verbEnvelope s t "POST" url body cc) = _
    simp [unwrapRaw, hP]
  · show unwrapRaw (verbEnvelope s t "PUT" url body cc) = _
    simp [unwrapRaw, hU]
  · show unwrapRaw (verbEnvelope s t "DELETE" url body cc) = _
    simp [unwrapRaw, hD]

/-- Claim C2 witness: concrete instantiation of `verb_rejections` at a
transport that rejects with the string `"boom"`. -/
theorem verb_rejections_witness :
    (post (mkSarvis none) (fun _ _ => .fail (.vstr "boom")) "/x" none none).2
      = .error (.vstr "boom") ∧
    (put (mkSarvis none) (fun _ _ => .fail (.vstr "boom")) "/x" none none).2
      = .error (.vstr "boom") ∧
    (deleteReq (mkSarvis none) (fun _ _ => .fail (.vstr "boom")) "/x" none none).2
      = .error (.vstr "boom") := by
  have h := verb_rejections (mkSarvis none) (fun _ _ => .fail (.vstr "boom")) "/x" none none
    rfl rfl rfl rfl
  exact ⟨h.2.1, h.2.2.1, h.2.2.2⟩

/-- Claim C3: with a caller-supplied override the dispatched options are
the shallow merge of the default options with the override: the override
wins for each top-level key it carries, and every default key absent from
the override (method, headers, body alike) is preserved — the override
never replaces the defaults wholesale. -/
theorem requestConfig_shallow_merge (cfg : ISarvisConfig) (method : String)
    (body : Option Value) (cc : RequestInit) :
    (∀ m, cc.method = some m →
      (requestConfigFor cfg method body (some cc)).method = some m) ∧
    (cc.method = none →
      (requestConfigFor cfg method body (some cc)).method
        = (getBasicRequestConfig cfg (some method) body).method) ∧
    (∀ hs, cc.headers = some hs →
      (requestConfigFor cfg method body (some cc)).headers = some hs) ∧
    (cc.headers = none →
      (requestConfigFor cfg method body (some cc)).headers
        = (getBasicRequestConfig cfg (some method) body).headers) ∧
    (∀ b, cc.body = some b →
      (requestConfigFor cfg method body (some cc)).body = some b) ∧
    (cc.body = none →
      (requestConfigFor cfg method body (some cc)).body
        = (getBasicRequestConfig cfg (some method) body).body) := by
  refine ⟨?_, ?_, ?_, ?_, ?_, ?_⟩ <;>
    · intros
      simp_all [requestConfigFor, mergeConfig]

/-- Claim C3 witness: an override carrying only a body keeps the default
method and headers and wins on the body. -/
theorem requestConfig_shallow_merge_witness :
    (requestConfigFor { authorization := some "Bearer xyz" } "GET" none
        (some { body := some "B" })).method = some "GET" ∧
    (requestConfigFor { authorization := some "Bearer xyz" } "GET" none
        (some { body := some "B" })).headers
      = some (basicHeaders { authorization := some "Bearer xyz" }) ∧
    (requestConfigFor { authorization := some "Bearer xyz" } "GET" none
        (some { body := some "B" })).body = some "B" := by
  have h := requestConfig_shallow_merge { authorization := some "Bearer xyz" } "GET" none
    { body := some "B" }
  exact ⟨(h.2.1 rfl).trans rfl, (h.2.2.2.1 rfl).trans rfl, h.2.2.2.2.1 "B" rfl⟩

/-- Claim C4: with no override the dispatched headers are exactly the
basic headers, which always carry `Content-Type: application/json` and
carry an `Authorization` header with exactly the configured value if and
only if the configured authorization is set and non-empty. -/
theorem no_override_headers (cfg : ISarvisConfig) (method : String) (body : Option Value) :
    (requestConfigFor cfg method body none).headers = some (basicHeaders cfg) ∧
    ("Content-Type", "application/json") ∈ basicHeaders cfg ∧
    ∀ v, ("Authorization", v) ∈ basicHeaders cfg ↔
      (strTruthy cfg.authorization = true ∧ cfg.authorization = some v) := by
  refine ⟨rfl, ?_, ?_⟩
  · unfold basicHeaders withAuthHeader
    cases h : cfg.authorization with
    | none => simp [strTruthy]
    | some a =>
      by_cases ha : a = "" <;> simp [strTruthy, ha]
  · intro v
    unfold basicHeaders withAuthHeader
    have hct : ("Authorization", v) ≠ ("Content-Type", "application/json") := by
      intro hc
      have h1 : ("Authorization" : String) = "Content-Type" := congrArg Prod.fst hc
      exact absurd h1 (by decide)
    cases h : cfg.authorization with
    | none => simp [strTruthy, hct]
    | some a =>
      by_cases ha : a = ""
      · subst ha
        simp [strTruthy, hct]
      · simp [strTruthy, ha, hct, Prod.ext_iff]
        exact eq_comm

/-- Claim C4 witness: with `authorization := "Bearer xyz"` the headers
carry both entries. -/
theorem no_override_headers_witness :
    ("Content-Type", "application/json")
      ∈ basicHeaders { authorization := some "Bearer xyz" } ∧
    (("Authorization", "Bearer xyz")
        ∈ basicHeaders { authorization := some "Bearer xyz" } ↔
      (strTruthy (some "Bearer xyz") = true ∧
        (some "Bearer xyz" : Option String) = some "Bearer xyz")) :=
  ⟨(no_override_headers { authorization := some "Bearer xyz" } "GET" none).2.1,
   (no_override_headers { authorization := some "Bearer xyz" } "GET" none).2.2 "Bearer xyz"⟩

/-- Claim C5: with a pre-request hook registered, the URL and options
handed to the transport are exactly the pair the hook returns, for every
input URL and options and with no validation: the whole call behaves as a
hook-free call at the hook's output. -/
theorem useBefore_output_dispatched (f : String → RequestInit → String × RequestInit)
    (ua : Option (Value → Value)) (rfr : Bool) (t : Transport)
    (url : String) (cfg : RequestInit) :
    applyUseBefore (some f) url cfg = f url cfg ∧
    fetchRequest (some f) ua rfr t url cfg
      = fetchRequest none ua rfr t (f url cfg).1 (f url cfg).2 := by
  constructor
  · rfl
  · simp [fetchRequest, applyUseBefore]

/-- Claim C6: for a transport response with `ok` true, when the
raw-response flag is set the envelope carries the response object with the
post-hook applied — whatever the `json()` behaviour, so parsing is never
consulted — and when the flag is clear and parsing succeeds the envelope
carries the parsed body with the post-hook applied. -/
theorem fetchRequest_success_flag (ub : Option (String → RequestInit → String × RequestInit))
    (ua : Option (Value → Value)) (t : Transport) (url : String) (cfg : RequestInit)
    (jsonFails : Bool) (jsonVal : Value)
    (h : t (applyUseBefore ub url cfg).1 (applyUseBefore ub url cfg).2
        = .resp true jsonFails jsonVal) :
    fetchRequest ub ua true t url cfg
      = { result := applyUseAfter ua (.vresp true jsonFails jsonVal), error := .vnull } ∧
    (jsonFails = false →
      fetchRequest ub ua false t url cfg
        = { result := applyUseAfter ua jsonVal, error := .vnull }) := by
  constructor
  · simp [fetchRequest, h]
  · intro hj
    subst hj
    simp [fetchRequest, h]

/-- Claim C6 witness: a concrete successful response, with both flag
settings. -/
theorem fetchRequest_success_flag_witness :
    fetchRequest none none true (fun _ _ => .resp true false (.vnum 5)) "u" {}
      = { result := .vresp true false (.vnum 5), error := .vnull } ∧
    fetchRequest none none false (fun _ _ => .resp true false (.vnum 5)) "u" {}
      = { result := .vnum 5, error := .vnull } := by
  have h := fetchRequest_success_flag none none (fun _ _ => .resp true false (.vnum 5))
    "u" {} false (.vnum 5) rfl
  exact ⟨h.1, h.2 rfl⟩

/-- Claim C7 counterexample: a successful response whose JSON body is the
null value yields the envelope `{result: null, error: null}` — neither
side is populated, refuting "exactly one side is non-null". -/
theorem envelope_both_null :
    (fetchRequest none none false (fun _ _ => .resp true false .vnull) "u" {}).result
      = .vnull ∧
    (fetchRequest none none false (fun _ _ => .resp true false .vnull) "u" {}).error
      = .vnull :=
  ⟨rfl, rfl⟩

/-- Claim C7 (amended): for every invocation of `fetchRequest` at most
one side of the envelope is populated — every error path leaves `result`
null and every success path leaves `error` null — though both sides are
null together when the success value itself is null. -/
theorem envelope_at_most_one
    (ub : Option (String → RequestInit → String × RequestInit))
    (ua : Option (Value → Value)) (rfr : Bool) (t : Transport)
    (url : String) (cfg : RequestInit) :
    (fetchRequest ub ua rfr t url cfg).result = .vnull ∨
    (fetchRequest ub ua rfr t url cfg).error = .vnull := by
  rcases h : t (applyUseBefore ub url cfg).1 (applyUseBefore ub url cfg).2 with e | ⟨ok, jf, jv⟩
  · simp [fetchRequest, h]
  · cases ok <;> cases rfr <;> cases jf <;> simp [fetchRequest, h]

/-- Claim C8: when the configuration has no truthy base URL the composed
URL is absent, the prefix is the empty string, and every verb's request
URL is the supplied path alone. -/
theorem no_base_url_bare_path (cfg : ISarvisConfig)
    (h : strTruthy cfg.base_url = false) :
    createApiUrl cfg = none ∧
    getApiUrl (createApiUrl cfg) = "" ∧
    ∀ path, requestUrlFor cfg path = path := by
  have h1 : createApiUrl cfg = none := by
    simp [createApiUrl, h]
  refine ⟨h1, ?_, ?_⟩
  · simp [getApiUrl, h1, strTruthy]
  · intro path
    rw [requestUrlFor, h1]
    show getApiUrl none ++ path = path
    rw [show getApiUrl none = "" from rfl]
    exact empty_string_append path

/-- Claim C8 witness: the empty configuration dispatches the bare path. -/
theorem no_base_url_bare_path_witness :
    strTruthy (ISarvisConfig.base_url {}) = false ∧
    requestUrlFor {} "/todos/1" = "/todos/1" :=
  ⟨rfl, (no_base_url_bare_path {} rfl).2.2 "/todos/1"⟩

/-- Claim C9: every verb call refreshes `api_url` from the current
configuration before building the request URL, so the call's entire
outcome is independent of whatever stale `api_url` the state carried, the
updated state stores `createApiUrl` of the current configuration, and the
dispatched envelope is computed from the current configuration's URL. -/
theorem api_url_recomputed (c : ISarvisConfig) (a1 a2 : Option String)
    (ub : Option (String → RequestInit → String × RequestInit))
    (ua : Option (Value → Value)) (rfr : Bool) (t : Transport) (url : String)
    (body : Option Value) (cc : Option RequestInit) :
    get ⟨c, a1, ub, ua, rfr⟩ t url cc = get ⟨c, a2, ub, ua, rfr⟩ t url cc ∧
    (get ⟨c, a1, ub, ua, rfr⟩ t url cc).1.api_url = createApiUrl c ∧
    (get ⟨c, a1, ub, ua, rfr⟩ t url cc).2
      = unwrapGet (fetchRequest ub ua rfr t (requestUrlFor c url)
          (requestConfigFor c "GET" none cc)) ∧
    post ⟨c, a1, ub, ua, rfr⟩ t url body cc = post ⟨c, a2, ub, ua, rfr⟩ t url body cc ∧
    (post ⟨c, a1, ub, ua, rfr⟩ t url body cc).1.api_url = createApiUrl c ∧
    (post ⟨c, a1, ub, ua, rfr⟩ t url body cc).2
      = unwrapRaw (fetchRequest ub ua rfr t (requestUrlFor c url)
          (requestConfigFor c "POST" body cc)) ∧
    put ⟨c, a1, ub, ua, rfr⟩ t url body cc = put ⟨c, a2, ub, ua, rfr⟩ t url body cc ∧
    deleteReq ⟨c, a1, ub, ua, rfr⟩ t url body cc
      = deleteReq ⟨c, a2, ub, ua, rfr⟩ t url body cc := by
  exact ⟨rfl, rfl, rfl, rfl, rfl, rfl, rfl, rfl⟩

/-- Claim C10: a body supplied but falsy (0, false, the empty string, or
null) makes the default request config carry no body at all, while a
truthy body is carried as its JSON serialization. -/
theorem falsy_body_dropped (cfg : ISarvisConfig) (method : Option String) (b : Value)
    (hf : truthy b = false) :
    (getBasicRequestConfig cfg method (some b)).body = none ∧
    ∀ b2, truthy b2 = true →
      (getBasicRequestConfig cfg method (some b2)).body = some (stringify b2) := by
  constructor
  · simp [getBasicRequestConfig, hf]
  · intro b2 ht
    simp [getBasicRequestConfig, ht]

/-- Claim C10 witness: a zero body is dropped, a non-zero body is
serialized. -/
theorem falsy_body_dropped_witness :
    truthy (.vnum 0) = false ∧
    (getBasicRequestConfig {} none (some (.vnum 0))).body = none ∧
    (getBasicRequestConfig {} none (some (.vnum 7))).body = some "7" := by
  have h := falsy_body_dropped {} none (.vnum 0) rfl
  exact ⟨rfl, h.1, (h.2 (.vnum 7) rfl).trans rfl⟩

end Sarvis
